import Mathlib

/-!
# Verification of the shared core of `ezviz-openapi-utils`

A shallow embedding of the token-lifecycle and response-interpretation core of
the `ezviz_openapi_utils` Python package:

* `src/ezviz_openapi_utils/api.py` — `EZVIZOpenAPI._handle_api_response`,
  `_extract_code_and_message`, `_get_error_remark`, and the constant tables
  `GLOBAL_ERROR_CODE_MAP` / `DEVICE_NOT_SUPPORTED_CODES`;
* `src/ezviz_openapi_utils/oauth.py` — `AccessToken.__init__`, `_get_url`,
  `_request_access_token` and the constant table `ERROR_CODE_REMARKS`;
* `src/ezviz_openapi_utils/client.py` — `Client.__init__` and the
  `Client.access_token` property.

Parsed JSON response bodies are modelled by the `PyJSON` type of Python
values (`PyJSON.null` is Python `None`; JSON `null` decodes to it).  Dicts
are association lists with string keys; the modelled bodies never carry
duplicate keys, so `List.lookup` agrees with Python dict lookup.  The HTTP
transport is a black box: a response is a status code together with either a
parsed dict body or a parse failure (`Option`), and the token endpoint is an
oracle `net : String → HTTPResponse` from URL to response.  Raised Python
exceptions become explicit result constructors.
-/

/-- A Python value as produced by `json.loads` (floats are not modelled:
no response field interpreted by the core carries one). `null` doubles as
Python `None`. -/
inductive PyJSON where
  | null : PyJSON
  | bool : Bool → PyJSON
  | num : Int → PyJSON
  | str : String → PyJSON
  | obj : List (String × PyJSON) → PyJSON
  | arr : List PyJSON → PyJSON

/-- Python `v is None`. -/
def isNull : PyJSON → Bool
  | .null => true
  | _ => false

/-- Python `d.get(k)`: the stored value, or `None` when the key is absent. -/
def pyGet (fs : List (String × PyJSON)) (k : String) : PyJSON :=
  (fs.lookup k).getD .null

/-- Python `d.get(k, dflt)`: the stored value (even when it is `None`), or
`dflt` only when the key is absent. -/
def pyGetD (fs : List (String × PyJSON)) (k : String) (dflt : PyJSON) : PyJSON :=
  (fs.lookup k).getD dflt

/-- A single-quote character, written via its code point. -/
def squote : String := (Char.ofNat 39).toString

mutual

/-- Python `repr` of a parsed-JSON value (string escaping inside `repr` of
`str` values is not modelled; no core string contains a quote). -/
def pyRepr : PyJSON → String
  | .null => "None"
  | .bool true => "True"
  | .bool false => "False"
  | .num n => toString n
  | .str s => squote ++ s ++ squote
  | .obj fs => "\x7b" ++ pyReprFields fs ++ "\x7d"
  | .arr xs => "[" ++ pyReprElems xs ++ "]"

/-- Python repr of the comma-separated key-colon-value entries of a dict. -/
def pyReprFields : List (String × PyJSON) → String
  | [] => ""
  | [(k, v)] => squote ++ k ++ squote ++ ": " ++ pyRepr v
  | (k, v) :: rest => squote ++ k ++ squote ++ ": " ++ pyRepr v ++ ", " ++ pyReprFields rest

/-- Python repr of the comma-separated elements of a list. -/
def pyReprElems : List PyJSON → String
  | [] => ""
  | [v] => pyRepr v
  | v :: rest => pyRepr v ++ ", " ++ pyReprElems rest

end

/-- Python `str` of a parsed-JSON value: a string is itself, everything else
is its `repr`. -/
def pyStr : PyJSON → String
  | .str s => s
  | v => pyRepr v

/-- Python `v == s` for a string literal `s` (a non-string value never
equals a string). -/
def beqStrLit (v : PyJSON) (s : String) : Bool :=
  match v with
  | .str t => t == s
  | _ => false

/-- Python `code in (200, "200")` from `_handle_api_response` line 143:
tuple membership via `==`, accepting the int `200` or the string `"200"`. -/
def is_success_code : PyJSON → Bool
  | .num 200 => true
  | .str "200" => true
  | _ => false

/-- Model of `requests.Response.raise_for_status`: it raises `HTTPError` exactly for
status codes in `[400, 600)`. -/
def http_failure (status : Nat) : Bool :=
  400 ≤ status && status < 600

/-- An HTTP response as seen by the core: transport status plus either the
parsed dict body (`some`) or a JSON-parse failure (`none`).  Every envelope
interpreted by the core is a JSON object, so non-dict parsed bodies (which
would crash Python before any classification) are outside the model. -/
structure HTTPResponse where
  status_code : Nat
  body : Option (List (String × PyJSON))

/-- Table `GLOBAL_ERROR_CODE_MAP` from `api.py` lines 21–58, verbatim. -/
def GLOBAL_ERROR_CODE_MAP : List (String × String) := [
  ("2001", "摄像机未注册到萤石云平台，请仔细检查摄像机的网络配置，确保连接到网络"),
  ("2003", "参考服务中心排查方法"),
  ("2030", "请确认该设备是否能支持接入萤石云，如有疑问可联系客服热线4007005998确认"),
  ("7007", "分享和删除分享必须全部由接口形式操作，如果与萤石客户端混用会造成这个问题，解决办法：在萤石客户端清空所有相关分享数据并重新添加设备，再通过接口操作即可"),
  ("9049", "个人版套餐只有1M带宽"),
  ("10001", "参数为空或者格式不对"),
  ("10002", "accessToken有效期为七天，建议在accessToken即将过期或者出现10002错误码的时候重新获取accessToken"),
  ("10005", "确认appKey状态，不通过或者冻结状态会返回该错误码"),
  ("10007", "根据用户类型调用次数有所不同，个人版用户可通过升级企业版的方式提高接口调用次数限制"),
  ("10008", "①获取签名方式详见apidemo及[旧]API文档 ②注意编码格式为UTF-8"),
  ("10010", "请调用同步服务器时间接口进行校时"),
  ("10011", "参照绑定流程"),
  ("10014", "获取AccessToken时所用appKey与SDK所用appKey不一致"),
  ("10017", "请填写在官网申请的应用秘钥"),
  ("10018", "请检查获取accessToken对应的appKey和SDK中设置的appKey是否一致"),
  ("10023", "请填写在官网填写的应用包名-->(详细信息)-->(应用类型:移动应用)-->应用包名(IOS为bundleId)"),
  ("10026", "个人版免费用户设备接入数限制，升级企业版可取消限制"),
  ("10027", "服务使用的个人版appKey数量超出安全限制，升级企业版可取消限制"),
  ("10028", "个人版用户抓图接口日调用次数超出限制"),
  ("10030", "请检查appKey和appSecret是否对应"),
  ("20001", "请检查摄像头设备是否重新添加过、通道参数是否更新"),
  ("20002", "①设备没有注册到萤石云平台，请检查下设备网络参数，确保能正常连接网络②设备序列号不存在"),
  ("20005", "已去掉安全验证"),
  ("20007", "参考服务中心排查方法"),
  ("20008", "设备响应超时，请检测设备网络或重试"),
  ("20010", "验证码在设备标签上，六位大写字母，注意大小写"),
  ("20018", "确认设备是否属于用户"),
  ("20025", "确认设备是否由添加过该设备且申请过分享的账户下是否还存在分享记录"),
  ("20031", "请在萤石客户端关闭终端绑定，参考此步骤"),
  ("60020", "请确认设备是否支持该命令"),
  ("60057", "检查IPC与NVR是否有关联关系"),
  ("60060", "请前往官网设置直播"),
  ("60083", "设备正在操作隐私遮蔽，无法进行当前操作"),
  ("60084", "设备正在操作隐私遮蔽，无法进行当前操作"),
  ("60085", "设备确权接口"),
  ("60086", "设备确权接口")]

/-- Table `DEVICE_NOT_SUPPORTED_CODES` from `api.py` lines 61–63 (a Python set;
order is immaterial, membership is what the code uses). -/
def DEVICE_NOT_SUPPORTED_CODES : List String :=
  ["2030", "20015", "20019", "60000", "60020", "60047", "60050", "60051", "60053"]

/-- Model of `EZVIZOpenAPI._extract_code_and_message` (`api.py` lines 150–168).
Returns `none` when Python would crash with `AttributeError` (a nested
envelope field present but not a dict). -/
def extract_code_and_message (response_data : List (String × PyJSON))
    (response_format : String) : Option (PyJSON × PyJSON) :=
  if response_format = "meta" then
    match pyGetD response_data "meta" (.obj []) with
    | .obj meta => some (pyGet meta "code", pyGetD meta "message" (.str "未知错误"))
    | _ => none
  else if response_format = "result" then
    match pyGetD response_data "result" (.obj []) with
    | .obj result => some (pyGet result "code", pyGetD result "msg" (.str "未知错误"))
    | _ => none
  else if response_format = "code" then
    some (pyGet response_data "code", pyGetD response_data "msg" (.str "未知错误"))
  else
    -- default: prefer top-level `code`, fall back to `meta.code`
    let code := pyGet response_data "code"
    let message := pyGetD response_data "msg" (pyGetD response_data "message" (.str "未知错误"))
    if isNull code then
      match pyGetD response_data "meta" (.obj []) with
      | .obj meta => some (pyGet meta "code", pyGetD meta "message" message)
      | _ => none
    else
      some (code, message)

/-- Model of `EZVIZOpenAPI._get_error_remark` (`api.py` lines 170–176): per-call
table first (`custom_map and code in custom_map`; an absent or empty map
never hits), then the global table, then the generic remark. -/
def get_error_remark (code : String)
    (custom_map : Option (List (String × String))) : String :=
  match (custom_map.getD []).lookup code with
  | some r => r
  | none => (GLOBAL_ERROR_CODE_MAP.lookup code).getD "未知错误"

/-- Display text of the `requests.HTTPError` raised by
`raise_for_status` (modelled opaquely; no claim observes this string). -/
def http_error_str (status : Nat) : String :=
  toString status ++ " Error"

/-- Outcome of `EZVIZOpenAPI._handle_api_response`: the returned parsed
body, or one of the exceptions the call can surface. -/
inductive APIResult where
  /-- `return response_data` -/
  | ok (payload : List (String × PyJSON)) : APIResult
  /-- `EZVIZDeviceNotSupportedError(str(code), message, device_serial, api_name)` -/
  | deviceNotSupported (code : String) (message : PyJSON)
      (device_serial api_name : String) : APIResult
  /-- `EZVIZAPIError(code, message, remark)` -/
  | apiError (code : String) (message : PyJSON) (remark : String) : APIResult
  /-- `requests.HTTPError` propagated uncaught out of `raise_for_status()` -/
  | httpError (status : Nat) : APIResult
  /-- Python `AttributeError` from a non-dict nested envelope field -/
  | attrError : APIResult

/-- Model of `EZVIZOpenAPI._handle_api_response` (`api.py` lines 115–148). -/
def handle_api_response (http_response : HTTPResponse)
    (api_name device_serial : String)
    (error_code_map : Option (List (String × String)))
    (response_format : String) : APIResult :=
  match http_response.body with
  | none =>
    -- json() raised ValueError: raise_for_status() first (uncaught), then
    -- EZVIZAPIError for a non-failure transport status
    if http_failure http_response.status_code then
      .httpError http_response.status_code
    else
      .apiError "HTTP_ERROR" (.str ("HTTP " ++ toString http_response.status_code))
        "无法解析响应数据"
  | some response_data =>
    match extract_code_and_message response_data response_format with
    | none => .attrError
    | some (code, message) =>
      if DEVICE_NOT_SUPPORTED_CODES.contains (pyStr code) then
        .deviceNotSupported (pyStr code) message device_serial api_name
      else if http_failure http_response.status_code then
        .apiError "HTTP_ERROR" (.str (http_error_str http_response.status_code))
          ("HTTP请求失败: " ++ http_error_str http_response.status_code)
      else if is_success_code code then
        .ok response_data
      else
        .apiError (pyStr code) message (get_error_remark (pyStr code) error_code_map)

/-- Table `ERROR_CODE_REMARKS` from `oauth.py` lines 21–27, verbatim. -/
def ERROR_CODE_REMARKS : List (String × String) := [
  ("10001", "参数为空或格式不正确"),
  ("10005", "appKey被冻结"),
  ("10017", "确认appKey是否正确"),
  ("10030", ""),
  ("49999", "接口调用异常")]

/-- The `url_map` of `AccessToken._get_url` (`oauth.py` lines 156–165),
verbatim: region → token-endpoint URL. -/
def url_map : List (String × String) := [
  ("cn", "https://open.ys7.com/api/lapp/token/get"),
  ("en", "https://open.ezvizlife.com/api/lapp/token/get"),
  ("eu", "https://ieuopen.ezvizlife.com/api/lapp/token/get"),
  ("us", "https://iusopen.ezvizlife.com/api/lapp/token/get"),
  ("sa", "https://isaopen.ezvizlife.com/api/lapp/token/get"),
  ("sg", "https://isgpopen.ezvizlife.com/api/lapp/token/get"),
  ("in", "https://iindiaopen.ezvizlife.com/api/lapp/token/get"),
  ("ru", "https://irusopen.ezvizlife.com/api/lapp/token/get")]

/-- Python values that cannot be dict keys (`dict.get` on them raises
`TypeError`). -/
def pyUnhashable : PyJSON → Bool
  | .obj _ => true
  | .arr _ => true
  | _ => false

/-- Model of the lookup `ERROR_CODE_REMARKS.get(self.code, "未知错误")` from `oauth.py` line 141:
the table is string-keyed, so any hashable non-string code misses it. -/
def error_code_remark_lookup (code : PyJSON) : String :=
  match code with
  | .str s => (ERROR_CODE_REMARKS.lookup s).getD "未知错误"
  | _ => "未知错误"

/-- One outgoing call to the token endpoint (`oauth.py` lines 170–181):
the URL chosen by `_get_url` and the two form-encoded fields posted. -/
structure TokenRequest where
  url : String
  app_key : String
  app_secret : String

/-- The attribute state of a successfully constructed `AccessToken`
(`oauth.py` lines 127–152): `code`, `msg`, and the three fields the
`AccessTokenData` helper reads off the payload with `.get`. -/
structure AccessTokenState where
  code : PyJSON
  msg : PyJSON
  access_token : PyJSON
  expire_time : PyJSON
  area_domain : PyJSON

/-- A Python exception escaping the token/client layer. -/
inductive PyErr where
  /-- `EZVIZAuthError(code, message, remark)` -/
  | authError (code msg : PyJSON) (remark : String) : PyErr
  /-- `ValueError` from `_get_url` on a region outside the table -/
  | valueError : PyErr
  /-- `requests.HTTPError` from `raise_for_status()` -/
  | httpError (status : Nat) : PyErr
  /-- `ValueError` from `response.json()` on an unparseable body -/
  | parseError : PyErr
  /-- `TypeError`/`AttributeError` (unhashable code used as a dict key, or
  a non-dict `data` payload handed to `AccessTokenData`) -/
  | typeError : PyErr
  /-- `KeyError` from `result["data"]` when the key is absent -/
  | keyError : PyErr

/-- Model of `AccessToken.__init__` (`oauth.py` lines 127–152) together with
`_get_url` and `_request_access_token` (lines 154–181).  The transport is
the oracle `net`; the second component lists the URLs actually posted to,
in order, so that "zero network calls" is expressible. -/
def acquire (net : String → HTTPResponse)
    (app_key app_secret region : String) :
    Except PyErr AccessTokenState × List TokenRequest :=
  match url_map.lookup region with
  | none => (.error .valueError, [])
  | some url =>
    let req : TokenRequest := ⟨url, app_key, app_secret⟩
    let resp := net url
    if http_failure resp.status_code then
      (.error (.httpError resp.status_code), [req])
    else
      match resp.body with
      | none => (.error .parseError, [req])
      | some result =>
        let code := pyGetD result "code" (.str "未知")
        let msg := pyGetD result "msg" (.str "无消息")
        if beqStrLit code "200" then
          match result.lookup "data" with
          | some (.obj d) =>
            (.ok { code := code, msg := msg,
                   access_token := pyGet d "accessToken",
                   expire_time := pyGet d "expireTime",
                   area_domain := pyGet d "areaDomain" }, [req])
          | some _ => (.error .typeError, [req])
          | none => (.error .keyError, [req])
        else if pyUnhashable code then
          (.error .typeError, [req])
        else
          (.error (.authError code msg (error_code_remark_lookup code)), [req])

/-- The state held by a constructed `Client` (`client.py` lines 24–32):
the credential triple plus the cached `AccessToken`.  `app_key`,
`app_secret` and `region` are set once and never written again. -/
structure ClientState where
  app_key : String
  app_secret : String
  region : String
  token : AccessTokenState

/-- Model of `Client.__init__` (`client.py` lines 24–32): acquire a token, then
re-check its code against `TOKEN_SUCCESS_CODE` ("200"). -/
def client_init (net : String → HTTPResponse)
    (app_key app_secret region : String) :
    Except PyErr ClientState × List TokenRequest :=
  match acquire net app_key app_secret region with
  | (.ok st, tr) =>
    if beqStrLit st.code "200" then
      (.ok { app_key := app_key, app_secret := app_secret,
             region := region, token := st }, tr)
    else
      (.error (.authError st.code st.msg "客户端初始化失败"), tr)
  | (.error e, tr) => (.error e, tr)

/-- The `Client.access_token` property (`client.py` lines 34–41): when the
cached code equals `TOKEN_EXPIRED_CODE` ("10002"), re-acquire and re-check;
otherwise hand out the cached bearer string.  Returns the bearer value and
the (possibly replaced) client state, plus the URL trace. -/
def access_token_read (net : String → HTTPResponse) (c : ClientState) :
    Except PyErr (PyJSON × ClientState) × List TokenRequest :=
  if beqStrLit c.token.code "10002" then
    match acquire net c.app_key c.app_secret c.region with
    | (.ok st, tr) =>
      if beqStrLit st.code "200" then
        (.ok (st.access_token, { c with token := st }), tr)
      else
        (.error (.authError st.code st.msg "重新获取 access_token 失败"), tr)
    | (.error e, tr) => (.error e, tr)
  else
    (.ok (c.token.access_token, c), [])

/-- Client states reachable through the state-changing
code: construction, followed by any number of successful `access_token`
reads (the only operation in the repository that writes `_access_token`;
the other `Client` properties and every `EZVIZOpenAPI` method only read). -/
inductive Reachable (net : String → HTTPResponse) : ClientState → Prop where
  | init (app_key app_secret region : String) (c : ClientState) (tr : List TokenRequest) :
      client_init net app_key app_secret region = (.ok c, tr) → Reachable net c
  | step (c : ClientState) (bearer : PyJSON) (c' : ClientState) (tr : List TokenRequest) :
      Reachable net c → access_token_read net c = (.ok (bearer, c'), tr) →
      Reachable net c'

/-- Whether an `APIResult` is an `EZVIZAPIError`. -/
def isAPIErrorOutcome : APIResult → Bool
  | .apiError _ _ _ => true
  | _ => false

/-- Predicate: the parsed-dict body lacks the code field of the declared envelope shape.
for nested shapes the nested object (or its absence) carries no `code` key;
for the top-level shapes the body itself carries no `code` key, and for
`default` additionally no `meta.code` fallback exists. -/
def lacks_code_field (response_data : List (String × PyJSON))
    (response_format : String) : Prop :=
  if response_format = "meta" then
    ∃ meta, pyGetD response_data "meta" (.obj []) = .obj meta ∧
      meta.lookup "code" = none
  else if response_format = "result" then
    ∃ result, pyGetD response_data "result" (.obj []) = .obj result ∧
      result.lookup "code" = none
  else if response_format = "code" then
    response_data.lookup "code" = none
  else
    response_data.lookup "code" = none ∧
    ∃ meta, pyGetD response_data "meta" (.obj []) = .obj meta ∧
      meta.lookup "code" = none

/-- Example body of the spec, in the meta shape:
`{"meta": {"code": 200, "message": "OK"}, "data": {"x": 1}}`. -/
def meta_example_body : List (String × PyJSON) :=
  [("meta", .obj [("code", .num 200), ("message", .str "OK")]),
   ("data", .obj [("x", .num 1)])]

/-- A transport oracle whose token endpoint always answers with a
well-formed success envelope. -/
def net_good : String → HTTPResponse := fun _ =>
  ⟨200, some [("code", .str "200"), ("msg", .str "操作成功"),
              ("data", .obj [("accessToken", .str "at-fresh"),
                             ("expireTime", .num 1234)])]⟩

/-- A transport oracle whose token endpoint always answers with the
frozen-appKey error envelope (code `10005`). -/
def net_frozen : String → HTTPResponse := fun _ =>
  ⟨200, some [("code", .str "10005"), ("msg", .str "appKey freeze"),
              ("data", .null)]⟩

/-- A client state whose cached token was last marked with the expiry
code `10002`. -/
def expired_client : ClientState :=
  { app_key := "k", app_secret := "s", region := "cn",
    token := { code := .str "10002", msg := .str "expired",
               access_token := .str "at-old", expire_time := .num 1,
               area_domain := .null } }

/-- A client state whose cached token carries the success code `200`. -/
def fresh_client : ClientState :=
  { app_key := "k", app_secret := "s", region := "cn",
    token := { code := .str "200", msg := .str "操作成功",
               access_token := .str "at-fresh", expire_time := .num 1234,
               area_domain := .null } }

/-- A `beqStrLit` success pins the value to that string literal. -/
theorem beqStrLit_eq {v : PyJSON} {s : String} (h : beqStrLit v s = true) :
    v = PyJSON.str s := by
  cases v <;> simp_all [beqStrLit]

/-- A successful `acquire` always carries the literal success code: the
constructor raises on anything else. -/
theorem acquire_ok_code (net : String → HTTPResponse)
    (app_key app_secret region : String) (st : AccessTokenState) (tr : List TokenRequest)
    (h : acquire net app_key app_secret region = (.ok st, tr)) :
    st.code = PyJSON.str "200" := by
  unfold acquire at h
  split at h
  · simp at h
  · simp only [] at h
    split at h
    · simp at h
    · split at h
      · simp at h
      · split at h
        · split at h
          · rename_i hbe _ _ _
            simp only [Prod.mk.injEq, Except.ok.injEq] at h
            rw [← h.1]
            exact beqStrLit_eq hbe
          · simp at h
          · simp at h
        · split at h
          · simp at h
          · simp at h

/-- C1 counterexample. The claim asserts success "for every
transport-level HTTP status, including non-2xx": at envelope shape `code`,
body `{"code": "200"}` and HTTP status 500, `_handle_api_response` instead
raises `EZVIZAPIError("HTTP_ERROR", …)` — `raise_for_status()` runs before
the business-code comparison. -/
theorem c1_counterexample :
    handle_api_response ⟨500, some [("code", PyJSON.str "200")]⟩ "" "" none "code"
      = APIResult.apiError "HTTP_ERROR" (.str (http_error_str 500))
          ("HTTP请求失败: " ++ http_error_str 500)
  ∧ handle_api_response ⟨500, some [("code", PyJSON.str "200")]⟩ "" "" none "code"
      ≠ APIResult.ok [("code", PyJSON.str "200")] := by
  refine ⟨rfl, ?_⟩
  intro h
  rw [show handle_api_response ⟨500, some [("code", PyJSON.str "200")]⟩ "" "" none "code"
        = APIResult.apiError "HTTP_ERROR" (.str (http_error_str 500))
            ("HTTP请求失败: " ++ http_error_str 500) from rfl] at h
  exact APIResult.noConfusion h

/-- C1 (amended). For every envelope shape in `{default, meta, result,
code}`, if the extracted code equals the success literal (numeric `200` or
string `"200"`), is not a device-capability code, and the HTTP status is
not a failure status (outside `[400, 600)`), then `_handle_api_response`
returns the parsed body successfully. -/
theorem c1_success_payload (response_data : List (String × PyJSON))
    (api_name device_serial : String)
    (error_code_map : Option (List (String × String)))
    (response_format : String) (status : Nat) (code message : PyJSON)
    (hfmt : response_format ∈ ["default", "meta", "result", "code"])
    (hx : extract_code_and_message response_data response_format = some (code, message))
    (hs : is_success_code code = true)
    (hdev : DEVICE_NOT_SUPPORTED_CODES.contains (pyStr code) = false)
    (hhttp : http_failure status = false) :
    handle_api_response ⟨status, some response_data⟩ api_name device_serial
      error_code_map response_format = .ok response_data := by
  have hdev' : pyStr code ∉ DEVICE_NOT_SUPPORTED_CODES := by simpa using hdev
  simp [handle_api_response, hx, hs, hdev', hhttp]

/-- C1 witness. Shape `code`, body `{"code": "200"}`, HTTP 301 (a
non-failure, non-2xx status): success with the full body. -/
theorem c1_witness :
    handle_api_response ⟨301, some [("code", PyJSON.str "200")]⟩ "api" "ser"
      none "code" = .ok [("code", PyJSON.str "200")] :=
  c1_success_payload [("code", PyJSON.str "200")] "api" "ser" none "code" 301
    (.str "200") (.str "未知错误") (by simp) rfl rfl rfl rfl

/-- C2. For every envelope shape and every HTTP status — failing ones
included — a response whose string-normalised extracted code lies in
`DEVICE_NOT_SUPPORTED_CODES` makes `_handle_api_response` raise
`EZVIZDeviceNotSupportedError`: the device-capability classification
happens before `raise_for_status()` is consulted. -/
theorem c2_device_code_priority (response_data : List (String × PyJSON))
    (api_name device_serial : String)
    (error_code_map : Option (List (String × String)))
    (response_format : String) (status : Nat) (code message : PyJSON)
    (hx : extract_code_and_message response_data response_format = some (code, message))
    (hdev : DEVICE_NOT_SUPPORTED_CODES.contains (pyStr code) = true) :
    handle_api_response ⟨status, some response_data⟩ api_name device_serial
      error_code_map response_format
      = .deviceNotSupported (pyStr code) message device_serial api_name := by
  have hdev' : pyStr code ∈ DEVICE_NOT_SUPPORTED_CODES := by simpa using hdev
  simp [handle_api_response, hx, hdev']

/-- C2 witness. The example given by the spec: shape `code`, body
`{"code": "20015", "msg": "not supported"}`, HTTP 400: a device-capability
error, not a transport error. -/
theorem c2_witness :
    handle_api_response
      ⟨400, some [("code", PyJSON.str "20015"), ("msg", PyJSON.str "not supported")]⟩
      "start_ptz_control" "C111" none "code"
      = .deviceNotSupported "20015" (.str "not supported") "C111" "start_ptz_control" :=
  c2_device_code_priority
    [("code", PyJSON.str "20015"), ("msg", PyJSON.str "not supported")]
    "start_ptz_control" "C111" none "code" 400 (.str "20015")
    (.str "not supported") rfl rfl

/-- C3 counterexample. The claim asserts an `EZVIZAPIError` in both
cases: with an unparseable body and HTTP 500, `_handle_api_response`
instead lets the `requests.HTTPError` from `raise_for_status()` propagate
uncaught — a typed `EZVIZAPIError` is only raised on a non-failure
status. -/
theorem c3_counterexample :
    handle_api_response ⟨500, none⟩ "" "" none "default" = .httpError 500
  ∧ isAPIErrorOutcome (handle_api_response ⟨500, none⟩ "" "" none "default") = false :=
  ⟨rfl, rfl⟩

/-- C3 (amended). An unparseable body is never a silent success: with a
failing HTTP status the `requests.HTTPError` from `raise_for_status()`
propagates, and with a non-failing status (2xx included)
`_handle_api_response` raises `EZVIZAPIError` carrying the
"could not parse" remark. -/
theorem c3_unparseable_always_error (status : Nat)
    (api_name device_serial : String)
    (error_code_map : Option (List (String × String)))
    (response_format : String) :
    (http_failure status = true →
      handle_api_response ⟨status, none⟩ api_name device_serial
        error_code_map response_format = .httpError status)
  ∧ (http_failure status = false →
      handle_api_response ⟨status, none⟩ api_name device_serial
        error_code_map response_format
        = .apiError "HTTP_ERROR" (.str ("HTTP " ++ toString status)) "无法解析响应数据") := by
  constructor <;> intro h <;> simp [handle_api_response, h]

/-- C3 witness. The example scenario of the spec: unparseable body at HTTP
200 is a typed parse error; and at HTTP 404 the transport error
propagates. -/
theorem c3_witness :
    handle_api_response ⟨200, none⟩ "a" "d" none "meta"
      = .apiError "HTTP_ERROR" (.str "HTTP 200") "无法解析响应数据"
  ∧ handle_api_response ⟨404, none⟩ "a" "d" none "meta" = .httpError 404 :=
  ⟨(c3_unparseable_always_error 200 "a" "d" none "meta").2 rfl,
   (c3_unparseable_always_error 404 "a" "d" none "meta").1 rfl⟩

/-- C7 counterexample. On the meta-shape example of the spec the call
succeeds, but the returned payload is the *entire* parsed body — it is not
equal to the `data` field of the body `{"x": 1}` as the claim states. -/
theorem c7_counterexample :
    handle_api_response ⟨200, some meta_example_body⟩ "" "" none "meta"
      = .ok meta_example_body
  ∧ pyGet meta_example_body "data" = PyJSON.obj [("x", PyJSON.num 1)]
  ∧ APIResult.ok meta_example_body ≠ APIResult.ok [("x", PyJSON.num 1)] := by
  refine ⟨rfl, rfl, ?_⟩
  intro h
  simp [meta_example_body] at h

/-- C7 (amended). For envelope shape `meta` with body
`{"meta": {"code": 200, "message": "OK"}, "data": {…}}` and HTTP status
200, `_handle_api_response` succeeds and returns the whole parsed body
(the `data` payload remains a field inside it). -/
theorem c7_meta_success_full_body :
    handle_api_response ⟨200, some meta_example_body⟩ "" "" none "meta"
      = .ok meta_example_body := rfl

/-- C8. The remark of a business error is resolved by the ordered two-tier
lookup: the per-call table (when provided and containing the code) wins,
else the global table, else the generic `未知错误` remark — and the remark
`_handle_api_response` attaches to a business `EZVIZAPIError` is exactly
this resolution. -/
theorem c8_two_tier_remark (response_data : List (String × PyJSON))
    (api_name device_serial : String)
    (error_code_map : Option (List (String × String)))
    (response_format : String) (status : Nat) (code message : PyJSON) :
    (extract_code_and_message response_data response_format = some (code, message) →
     DEVICE_NOT_SUPPORTED_CODES.contains (pyStr code) = false →
     http_failure status = false →
     is_success_code code = false →
     handle_api_response ⟨status, some response_data⟩ api_name device_serial
       error_code_map response_format
       = .apiError (pyStr code) message (get_error_remark (pyStr code) error_code_map))
  ∧ (∀ s r, (error_code_map.getD []).lookup s = some r →
      get_error_remark s error_code_map = r)
  ∧ (∀ s r, (error_code_map.getD []).lookup s = none →
      GLOBAL_ERROR_CODE_MAP.lookup s = some r →
      get_error_remark s error_code_map = r)
  ∧ (∀ s, (error_code_map.getD []).lookup s = none →
      GLOBAL_ERROR_CODE_MAP.lookup s = none →
      get_error_remark s error_code_map = "未知错误") := by
  refine ⟨?_, ?_, ?_, ?_⟩
  · intro hx hdev hhttp hs
    have hdev' : pyStr code ∉ DEVICE_NOT_SUPPORTED_CODES := by simpa using hdev
    simp [handle_api_response, hx, hdev', hhttp, hs]
  · intro s r h
    simp [get_error_remark, h]
  · intro s r h hg
    simp [get_error_remark, h, hg]
  · intro s h hg
    simp [get_error_remark, h, hg]

/-- C8 witness. Code `10001` with a per-call table overriding it takes
the per-call remark; code `10005` off the per-call table falls back to the
global table; code `77777` absent from both gets the generic remark. -/
theorem c8_witness :
    handle_api_response
      ⟨200, some [("code", PyJSON.str "10001"), ("msg", PyJSON.str "bad param")]⟩
      "add_device" "C1" (some [("10001", "参数为空或格式不正确")]) "code"
      = .apiError "10001" (.str "bad param") "参数为空或格式不正确"
  ∧ get_error_remark "10005" (some [("10001", "参数为空或格式不正确")])
      = "确认appKey状态，不通过或者冻结状态会返回该错误码"
  ∧ get_error_remark "77777" (some [("10001", "参数为空或格式不正确")]) = "未知错误" := by
  obtain ⟨h1, h2, h3, h4⟩ :=
    c8_two_tier_remark
      [("code", PyJSON.str "10001"), ("msg", PyJSON.str "bad param")]
      "add_device" "C1" (some [("10001", "参数为空或格式不正确")]) "code" 200
      (.str "10001") (.str "bad param")
  exact ⟨h1 rfl rfl rfl rfl, h3 "10005" _ rfl rfl, h4 "77777" rfl rfl⟩

/-- C10. A parsed-dict body lacking the code field of the declared shape
(and, for `default`, also the `meta.code` fallback) extracts code `None`;
at a non-failing HTTP status and with no per-call remark for `"None"` this
is classified as a business `EZVIZAPIError` whose code is the string
`"None"` and whose remark is the generic `未知错误` — not as a
transport/parse error. -/
theorem c10_missing_code_business_error (response_data : List (String × PyJSON))
    (api_name device_serial : String)
    (error_code_map : Option (List (String × String)))
    (response_format : String) (status : Nat) (message : PyJSON) :
    (lacks_code_field response_data response_format →
      ∃ m, extract_code_and_message response_data response_format
        = some (PyJSON.null, m))
  ∧ (extract_code_and_message response_data response_format
        = some (PyJSON.null, message) →
     http_failure status = false →
     (error_code_map.getD []).lookup "None" = none →
     handle_api_response ⟨status, some response_data⟩ api_name device_serial
       error_code_map response_format
       = .apiError "None" message "未知错误") := by
  constructor
  · intro hl
    unfold lacks_code_field at hl
    by_cases h1 : response_format = "meta"
    · rw [if_pos h1] at hl
      obtain ⟨meta, hm, hc⟩ := hl
      exact ⟨pyGetD meta "message" (.str "未知错误"),
        by simp [extract_code_and_message, h1, hm, pyGet, hc]⟩
    · by_cases h2 : response_format = "result"
      · rw [if_neg h1, if_pos h2] at hl
        obtain ⟨result, hm, hc⟩ := hl
        exact ⟨pyGetD result "msg" (.str "未知错误"),
          by simp [extract_code_and_message, h1, h2, hm, pyGet, hc]⟩
      · by_cases h3 : response_format = "code"
        · rw [if_neg h1, if_neg h2, if_pos h3] at hl
          exact ⟨pyGetD response_data "msg" (.str "未知错误"),
            by simp [extract_code_and_message, h1, h2, h3, pyGet, hl]⟩
        · rw [if_neg h1, if_neg h2, if_neg h3] at hl
          obtain ⟨hc0, meta, hm, hc⟩ := hl
          exact ⟨pyGetD meta "message"
              (pyGetD response_data "msg"
                (pyGetD response_data "message" (.str "未知错误"))),
            by simp [extract_code_and_message, h1, h2, h3, pyGet, hc0, isNull, hm, hc]⟩
  · intro hx hhttp hcm
    have hdev' : "None" ∉ DEVICE_NOT_SUPPORTED_CODES := by
      simp [DEVICE_NOT_SUPPORTED_CODES]
    have hg : GLOBAL_ERROR_CODE_MAP.lookup "None" = none := by rfl
    simp [handle_api_response, hx, hdev', hhttp, is_success_code,
          get_error_remark, hcm, hg, pyStr, pyRepr]

/-- C10 witness. Shape `code`, body `{"msg": "hello"}` (no `code`
key), HTTP 200: extraction yields `None` and the call raises
`EZVIZAPIError("None", "hello", "未知错误")`. -/
theorem c10_witness :
    (∃ m, extract_code_and_message [("msg", PyJSON.str "hello")] "code"
      = some (PyJSON.null, m))
  ∧ handle_api_response ⟨200, some [("msg", PyJSON.str "hello")]⟩ "a" "d" none "code"
      = .apiError "None" (.str "hello") "未知错误" :=
  ⟨(c10_missing_code_business_error [("msg", PyJSON.str "hello")] "a" "d" none
      "code" 200 (.str "hello")).1 (by simp [lacks_code_field]),
   (c10_missing_code_business_error [("msg", PyJSON.str "hello")] "a" "d" none
      "code" 200 (.str "hello")).2 rfl rfl rfl⟩

/-- A value distinct from the string literal never `==` it. -/
theorem beqStrLit_eq_false {v : PyJSON} {s : String} (h : v ≠ PyJSON.str s) :
    beqStrLit v s = false := by
  cases v <;> simp_all [beqStrLit]

/-- C5. Token acquisition for a region outside the fixed table fails
with `ValueError` before any network call; for a region in the table,
exactly one request is posted, to the fixed endpoint URL of that region with
the credential pair as the form fields; and the regions of the table are exactly
the eight `cn, en, eu, us, sa, sg, in, ru`. -/
theorem c5_region_table (net : String → HTTPResponse)
    (app_key app_secret region : String) :
    (url_map.lookup region = none →
      acquire net app_key app_secret region = (.error .valueError, []))
  ∧ (∀ url, url_map.lookup region = some url →
      (acquire net app_key app_secret region).2
        = [⟨url, app_key, app_secret⟩])
  ∧ url_map.map Prod.fst = ["cn", "en", "eu", "us", "sa", "sg", "in", "ru"] := by
  refine ⟨?_, ?_, rfl⟩
  · intro h
    simp [acquire, h]
  · intro url h
    unfold acquire
    rw [h]
    simp only []
    split
    · rfl
    · split
      · rfl
      · split
        · split <;> rfl
        · split <;> rfl

/-- C5 witness. Region `"jp"` is outside the table: `ValueError`,
zero requests.  Region `"sg"` posts exactly one request to the fixed
Singapore endpoint. -/
theorem c5_witness :
    acquire net_good "k" "s" "jp" = (.error .valueError, [])
  ∧ (acquire net_good "k" "s" "sg").2
      = [⟨"https://isgpopen.ezvizlife.com/api/lapp/token/get", "k", "s"⟩] :=
  ⟨(c5_region_table net_good "k" "s" "jp").1 rfl,
   (c5_region_table net_good "k" "s" "sg").2.1 _ rfl⟩

/-- C6. When the parsed response of the token endpoint carries a code other
than the literal `"200"`, `AccessToken` construction raises
`EZVIZAuthError` carrying the returned code, the returned message, and the
remark found for the code in `ERROR_CODE_REMARKS` — with every code absent
from that table mapped to the generic `未知错误` remark. -/
theorem c6_auth_error_remark (net : String → HTTPResponse)
    (app_key app_secret region url : String)
    (result : List (String × PyJSON)) (code msg : PyJSON)
    (hr : url_map.lookup region = some url)
    (hs : http_failure (net url).status_code = false)
    (hb : (net url).body = some result)
    (hc : pyGetD result "code" (.str "未知") = code)
    (hm : pyGetD result "msg" (.str "无消息") = msg)
    (hne : beqStrLit code "200" = false)
    (hh : pyUnhashable code = false) :
    acquire net app_key app_secret region
      = (.error (.authError code msg (error_code_remark_lookup code)),
         [⟨url, app_key, app_secret⟩])
  ∧ ∀ s, ERROR_CODE_REMARKS.lookup s = none →
      error_code_remark_lookup (PyJSON.str s) = "未知错误" := by
  constructor
  · simp [acquire, hr, hs, hb, hc, hm, hne, hh]
  · intro s h
    simp [error_code_remark_lookup, h]

/-- C6 witness. A response with code `10005` yields
`EZVIZAuthError("10005", …, "appKey被冻结")`; the code `31415` is absent
from `ERROR_CODE_REMARKS` and maps to the generic remark. -/
theorem c6_witness :
    acquire net_frozen "k" "s" "cn"
      = (.error (.authError (.str "10005") (.str "appKey freeze") "appKey被冻结"),
         [⟨"https://open.ys7.com/api/lapp/token/get", "k", "s"⟩])
  ∧ error_code_remark_lookup (PyJSON.str "31415") = "未知错误" := by
  obtain ⟨h1, h2⟩ :=
    c6_auth_error_remark net_frozen "k" "s" "cn"
      "https://open.ys7.com/api/lapp/token/get"
      [("code", PyJSON.str "10005"), ("msg", PyJSON.str "appKey freeze"),
       ("data", PyJSON.null)]
      (.str "10005") (.str "appKey freeze") rfl rfl rfl rfl rfl rfl rfl
  refine ⟨?_, h2 "31415" rfl⟩
  simpa [error_code_remark_lookup, ERROR_CODE_REMARKS] using h1

/-- C4. When the code of the cached token is the expiry literal `"10002"`,
the `access_token` property performs exactly the one re-acquisition and
returns the bearer of the fresh token (any `EZVIZAuthError` from the
re-acquisition propagates); for any other cached code it performs zero
network calls and returns the cached bearer with the state unchanged. -/
theorem c4_access_token_refresh (net : String → HTTPResponse) (c : ClientState) :
    (c.token.code = PyJSON.str "10002" →
      access_token_read net c =
        (match acquire net c.app_key c.app_secret c.region with
         | (.ok st, tr) => (.ok (st.access_token, { c with token := st }), tr)
         | (.error e, tr) => (.error e, tr)))
  ∧ (c.token.code ≠ PyJSON.str "10002" →
      access_token_read net c = (.ok (c.token.access_token, c), [])) := by
  constructor
  · intro h
    unfold access_token_read
    rw [h]
    simp only [beqStrLit, beq_self_eq_true, if_true]
    rcases hA : acquire net c.app_key c.app_secret c.region with ⟨res, tr⟩
    rcases res with e | st
    · rfl
    · have hcode := acquire_ok_code net c.app_key c.app_secret c.region st tr hA
      simp [hcode, beqStrLit]
  · intro h
    unfold access_token_read
    rw [beqStrLit_eq_false h]
    rfl

/-- C4 witness. An expired-marked client re-acquires once (one posted
request) and hands out the fresh bearer; a client with code `"200"` makes
zero requests and keeps its state. -/
theorem c4_witness :
    access_token_read net_good expired_client
      = (.ok (PyJSON.str "at-fresh",
          { expired_client with token :=
            { code := .str "200", msg := .str "操作成功",
              access_token := .str "at-fresh", expire_time := .num 1234,
              area_domain := .null } }),
         [⟨"https://open.ys7.com/api/lapp/token/get", "k", "s"⟩])
  ∧ access_token_read net_good fresh_client
      = (.ok (PyJSON.str "at-fresh", fresh_client), []) := by
  constructor
  · rw [(c4_access_token_refresh net_good expired_client).1 rfl]
    rfl
  · exact (c4_access_token_refresh net_good fresh_client).2
      (by simp [fresh_client])

/-- C9. Invariant: every reachable state of a successfully constructed
`Client` caches a token whose code is `"200"` — construction raises on any
other code and no operation ever writes the expiry code `"10002"` into the
cache — so the refresh branch of the `access_token` property is never
taken and every read returns the originally acquired bearer with zero
network calls and the state unchanged. -/
theorem c9_client_token_invariant (net : String → HTTPResponse)
    (c : ClientState) (h : Reachable net c) :
    c.token.code = PyJSON.str "200"
  ∧ access_token_read net c = (.ok (c.token.access_token, c), []) := by
  induction h with
  | init app_key app_secret region c tr hinit =>
    have hcode : c.token.code = PyJSON.str "200" := by
      unfold client_init at hinit
      rcases hA : acquire net app_key app_secret region with ⟨res, tr'⟩
      rw [hA] at hinit
      rcases res with e | st
      · simp at hinit
      · have hst := acquire_ok_code net app_key app_secret region st tr' hA
        simp only [hst, beqStrLit, beq_self_eq_true, if_true,
          Prod.mk.injEq, Except.ok.injEq] at hinit
        rw [← hinit.1]
        exact hst
    have hne : beqStrLit c.token.code "10002" = false := by
      rw [hcode]; rfl
    exact ⟨hcode, by simp [access_token_read, hne]⟩
  | step c bearer c' tr hr hread ih =>
    rw [ih.2] at hread
    simp only [Prod.mk.injEq, Except.ok.injEq] at hread
    obtain ⟨⟨-, hc'⟩, -⟩ := hread
    rw [← hc']
    exact ih

/-- C9 witness. A concretely constructed client is reachable, its
cached code is `"200"`, and a read hands back the original bearer with no
network traffic. -/
theorem c9_witness :
    Reachable net_good fresh_client
  ∧ fresh_client.token.code = PyJSON.str "200"
  ∧ access_token_read net_good fresh_client
      = (.ok (fresh_client.token.access_token, fresh_client), []) := by
  have hinit : client_init net_good "k" "s" "cn"
      = (.ok fresh_client,
         [⟨"https://open.ys7.com/api/lapp/token/get", "k", "s"⟩]) := rfl
  have hreach : Reachable net_good fresh_client :=
    Reachable.init "k" "s" "cn" fresh_client _ hinit
  exact ⟨hreach, c9_client_token_invariant net_good fresh_client hreach⟩
